import Mathlib

/-!
Verification of the CAF DROM-COM financial-data simulator (`Caf.py`).

The Python program is embedded shallowly: each `_simulate_*` method of
`CAF_DROMCOMAnalyzer` becomes a pure Lean function over `ℚ`, with the
`np.random.normal(1, σ)` noise draw made an explicit `ℚ` parameter, and
the row-mutating `_add_caf_trends` pass becomes a function on rows
(`CAFField → ℚ`).  Decimal constants of the source are written as exact
rationals (e.g. `0.012` as `12/1000`).
-/

namespace CafDromCom

/-- A territory configuration bundle, as stored in the `configs` dict of
`_get_territoire_config`: baseline number of beneficiaries, baseline budget
(M€), and the list of qualitative tags (`specificites`). -/
structure TerritoireConfig where
  allocataires_base : ℚ
  budget_base : ℚ
  specificites : List String
deriving DecidableEq, Repr

/-- The `"default"` entry of the `configs` dict (population 50 000,
budget 200, tags prestations_familiales / logement / solidarite). -/
def defaultConfig : TerritoireConfig :=
  { allocataires_base := 50000
    budget_base := 200
    specificites := ["prestations_familiales", "logement", "solidarite"] }

/-- The `configs` dict of `_get_territoire_config`, in source order, as an
association list. The `"default"` key is part of the dict in the source. -/
def configsList : List (String × TerritoireConfig) :=
  [ ("Guadeloupe", ⟨120000, 450, ["familles_nombreuses", "precarite", "vieillesse"]⟩)
  , ("Martinique", ⟨110000, 420, ["vieillesse", "dependance", "handicap"]⟩)
  , ("Guyane", ⟨85000, 380, ["jeunesse", "familles_nombreuses", "precarite"]⟩)
  , ("La Réunion", ⟨220000, 680, ["precarite", "emploi", "familles_monoparentales"]⟩)
  , ("Mayotte", ⟨65000, 280, ["jeunesse", "familles_nombreuses", "precarite_elevee"]⟩)
  , ("Saint-Martin", ⟨18000, 85, ["tourisme", "petite_enfance", "precarite"]⟩)
  , ("Saint-Barthélemy", ⟨5000, 45, ["vieillesse", "tourisme", "revenus_eleves"]⟩)
  , ("Saint-Pierre-et-Miquelon", ⟨3500, 35, ["isolement", "vieillesse", "petite_enfance"]⟩)
  , ("Wallis-et-Futuna", ⟨8000, 55, ["traditions", "jeunesse", "isolement"]⟩)
  , ("Polynésie française", ⟨95000, 320, ["isolement", "tourisme", "jeunesse"]⟩)
  , ("Nouvelle-Calédonie", ⟨105000, 380, ["nickel", "vieillesse", "precarite"]⟩)
  , ("default", defaultConfig) ]

/-- `_get_territoire_config`: `configs.get(self.territoire, configs["default"])`. -/
def _get_territoire_config (territoire : String) : TerritoireConfig :=
  (configsList.lookup territoire).getD defaultConfig

/-- The eleven named (non-default) presets of the table. -/
def namedPresets : List (String × TerritoireConfig) :=
  configsList.take 11

/-- The columns of the generated table other than `Annee`, in source order. -/
inductive CAFField where
  | Nombre_Allocataires
  | Prestations_Versees
  | Recettes_Totales
  | Cotisations_Sociales
  | Contributions_Etat
  | Autres_Recettes
  | Depenses_Totales
  | Prestations_Familiales
  | Prestations_Logement
  | Prestations_Solidarite
  | Frais_Gestion
  | Taux_Couverture
  | Ratio_Gestion
  | Solde_Compte
  | Allocations_Familiales
  | ARS
  | APL
  | RSA
  | Prime_Naissance
deriving DecidableEq, Repr

/-- One year's worth of generated values: a value for each field. -/
def Row : Type := CAFField → ℚ

/-- `_simulate_allocataires`: `allocataires_base * (1 + growth_rate * i)`,
growth rate 0.025 / 0.018 / 0.012 by territory group; the source draws no
noise for this series. -/
def _simulate_allocataires (territoire : String) (config : TerritoireConfig)
    (i : ℕ) : ℚ :=
  let growth_rate : ℚ :=
    if territoire ∈ ["Mayotte", "Guyane"] then 25/1000
    else if territoire ∈ ["La Réunion", "Polynésie française"] then 18/1000
    else 12/1000
  config.allocataires_base * (1 + growth_rate * i)

/-- `_simulate_prestations`: `budget_base * 0.85 * (1 + rate * i) * noise`,
rate 0.028 / 0.022 / 0.018 by territory group. -/
def _simulate_prestations (territoire : String) (config : TerritoireConfig)
    (i : ℕ) (noise : ℚ) : ℚ :=
  let growth : ℚ :=
    if territoire ∈ ["Mayotte", "Guyane"] then 1 + 28/1000 * i
    else if territoire ∈ ["La Réunion", "Polynésie française"] then 1 + 22/1000 * i
    else 1 + 18/1000 * i
  config.budget_base * (85/100) * growth * noise

/-- `_simulate_total_revenue`: `budget_base * (1 + rate * i) * noise`,
rate 0.042 / 0.035 / 0.028 by territory group. -/
def _simulate_total_revenue (territoire : String) (config : TerritoireConfig)
    (i : ℕ) (noise : ℚ) : ℚ :=
  let growth_rate : ℚ :=
    if territoire ∈ ["Mayotte", "Guyane"] then 42/1000
    else if territoire ∈ ["La Réunion", "Polynésie française"] then 35/1000
    else 28/1000
  config.budget_base * (1 + growth_rate * i) * noise

/-- `_simulate_social_contributions`: `budget_base * 0.65 * (1 + rate * i) * noise`,
rate 0.035 / 0.028 / 0.022 by territory group. -/
def _simulate_social_contributions (territoire : String)
    (config : TerritoireConfig) (i : ℕ) (noise : ℚ) : ℚ :=
  let growth : ℚ :=
    if territoire ∈ ["Mayotte", "Guyane"] then 1 + 35/1000 * i
    else if territoire ∈ ["La Réunion", "Polynésie française"] then 1 + 28/1000 * i
    else 1 + 22/1000 * i
  config.budget_base * (65/100) * growth * noise

/-- `_simulate_state_contributions`: base `budget_base * 0.30`; the increase
factor is 1 before 2010 and `1 + rate * (year - 2010)` from 2010 on, rate
0.022 / 0.018 / 0.015 by territory group. -/
def _simulate_state_contributions (territoire : String)
    (config : TerritoireConfig) (year : ℕ) (noise : ℚ) : ℚ :=
  let increase : ℚ :=
    if 2010 ≤ year then
      if territoire ∈ ["Mayotte", "Guyane"] then 1 + 22/1000 * ((year : ℚ) - 2010)
      else if territoire ∈ ["La Réunion", "Polynésie française"] then
        1 + 18/1000 * ((year : ℚ) - 2010)
      else 1 + 15/1000 * ((year : ℚ) - 2010)
    else 1
  config.budget_base * (30/100) * increase * noise

/-- `_simulate_other_revenue`: `budget_base * 0.05 * (1 + 0.025 * i) * noise`. -/
def _simulate_other_revenue (config : TerritoireConfig) (i : ℕ) (noise : ℚ) : ℚ :=
  config.budget_base * (5/100) * (1 + 25/1000 * i) * noise

/-- `_simulate_total_expenses`: `budget_base * 0.95 * (1 + rate * i) * noise`,
rate 0.038 / 0.032 / 0.026 by territory group. -/
def _simulate_total_expenses (territoire : String) (config : TerritoireConfig)
    (i : ℕ) (noise : ℚ) : ℚ :=
  let growth : ℚ :=
    if territoire ∈ ["Mayotte", "Guyane"] then 1 + 38/1000 * i
    else if territoire ∈ ["La Réunion", "Polynésie française"] then 1 + 32/1000 * i
    else 1 + 26/1000 * i
  config.budget_base * (95/100) * growth * noise

/-- `_simulate_family_benefits`: `budget_base * 0.45 * (1 + rate * i) *
multiplier * noise`, multiplier 1.4 iff `"familles_nombreuses"` is among the
`specificites`, rate 0.032 / 0.028 / 0.022 by territory group. -/
def _simulate_family_benefits (territoire : String) (config : TerritoireConfig)
    (i : ℕ) (noise : ℚ) : ℚ :=
  let multiplier : ℚ :=
    if "familles_nombreuses" ∈ config.specificites then 14/10 else 1
  let growth : ℚ :=
    if territoire ∈ ["Mayotte", "Guyane"] then 1 + 32/1000 * i
    else if territoire ∈ ["La Réunion", "Polynésie française"] then 1 + 28/1000 * i
    else 1 + 22/1000 * i
  config.budget_base * (45/100) * growth * multiplier * noise

/-- `_simulate_housing_benefits`: `budget_base * 0.25 * (1 + rate * i) * noise`,
rate 0.035 / 0.03 / 0.024 by territory group. -/
def _simulate_housing_benefits (territoire : String) (config : TerritoireConfig)
    (i : ℕ) (noise : ℚ) : ℚ :=
  let growth : ℚ :=
    if territoire ∈ ["Mayotte", "Guyane"] then 1 + 35/1000 * i
    else if territoire ∈ ["La Réunion", "Polynésie française"] then 1 + 30/1000 * i
    else 1 + 24/1000 * i
  config.budget_base * (25/100) * growth * noise

/-- `_simulate_solidarity_benefits`: `budget_base * 0.20 * (1 + rate * i) *
multiplier * noise`, multiplier 1.5 iff `"precarite"` is among the
`specificites`, rate 0.04 / 0.035 / 0.028 by territory group. -/
def _simulate_solidarity_benefits (territoire : String)
    (config : TerritoireConfig) (i : ℕ) (noise : ℚ) : ℚ :=
  let multiplier : ℚ := if "precarite" ∈ config.specificites then 15/10 else 1
  let growth : ℚ :=
    if territoire ∈ ["Mayotte", "Guyane"] then 1 + 40/1000 * i
    else if territoire ∈ ["La Réunion", "Polynésie française"] then 1 + 35/1000 * i
    else 1 + 28/1000 * i
  config.budget_base * (20/100) * growth * multiplier * noise

/-- `_simulate_management_costs`: `budget_base * 0.05 * (1 + 0.02 * i) * noise`. -/
def _simulate_management_costs (config : TerritoireConfig) (i : ℕ)
    (noise : ℚ) : ℚ :=
  config.budget_base * (5/100) * (1 + 20/1000 * i) * noise

/-- `_simulate_coverage_rate`: base rate 0.85 / 0.88 / 0.92 by territory
group; improvement factor 1 before 2010, `1 + 0.005 * (year - 2010)` after. -/
def _simulate_coverage_rate (territoire : String) (year : ℕ) (noise : ℚ) : ℚ :=
  let base_rate : ℚ :=
    if territoire ∈ ["Mayotte", "Guyane"] then 85/100
    else if territoire ∈ ["La Réunion", "Polynésie française"] then 88/100
    else 92/100
  let improvement : ℚ :=
    if 2010 ≤ year then 1 + 5/1000 * ((year : ℚ) - 2010) else 1
  base_rate * improvement * noise

/-- `_simulate_management_ratio`: base ratio 0.075 / 0.065 / 0.055 by
territory group; improvement factor 1 before 2010,
`1 - 0.003 * (year - 2010)` after. -/
def _simulate_management_ratio (territoire : String) (year : ℕ)
    (noise : ℚ) : ℚ :=
  let base_ratio : ℚ :=
    if territoire ∈ ["Saint-Pierre-et-Miquelon", "Wallis-et-Futuna"] then 75/1000
    else if territoire ∈ ["Mayotte", "Guyane"] then 65/1000
    else 55/1000
  let improvement : ℚ :=
    if 2010 ≤ year then 1 - 3/1000 * ((year : ℚ) - 2010) else 1
  base_ratio * improvement * noise

/-- `_simulate_account_balance`: `budget_base * 0.03 * improvement * noise`,
improvement 1 before 2010, `1 + 0.01 * (year - 2010)` after. -/
def _simulate_account_balance (config : TerritoireConfig) (year : ℕ)
    (noise : ℚ) : ℚ :=
  let improvement : ℚ :=
    if 2010 ≤ year then 1 + 10/1000 * ((year : ℚ) - 2010) else 1
  config.budget_base * (3/100) * improvement * noise

/-- `_simulate_family_allocations`: `budget_base * 0.25 * (1 + rate * i) *
multiplier * noise`, multiplier 1.4 iff `"familles_nombreuses"` tag, rate
0.03 / 0.025 / 0.02 by territory group. -/
def _simulate_family_allocations (territoire : String)
    (config : TerritoireConfig) (i : ℕ) (noise : ℚ) : ℚ :=
  let multiplier : ℚ :=
    if "familles_nombreuses" ∈ config.specificites then 14/10 else 1
  let growth : ℚ :=
    if territoire ∈ ["Mayotte", "Guyane"] then 1 + 30/1000 * i
    else if territoire ∈ ["La Réunion", "Polynésie française"] then 1 + 25/1000 * i
    else 1 + 20/1000 * i
  config.budget_base * (25/100) * growth * multiplier * noise

/-- `_simulate_ars` (back-to-school grant): `budget_base * 0.08 *
(1 + rate * i) * multiplier * noise`, multiplier 1.3 iff `"jeunesse"` tag,
rate 0.032 / 0.028 / 0.022 by territory group. -/
def _simulate_ars (territoire : String) (config : TerritoireConfig) (i : ℕ)
    (noise : ℚ) : ℚ :=
  let multiplier : ℚ := if "jeunesse" ∈ config.specificites then 13/10 else 1
  let growth : ℚ :=
    if territoire ∈ ["Mayotte", "Guyane"] then 1 + 32/1000 * i
    else if territoire ∈ ["La Réunion", "Polynésie française"] then 1 + 28/1000 * i
    else 1 + 22/1000 * i
  config.budget_base * (8/100) * growth * multiplier * noise

/-- `_simulate_apl`: `budget_base * 0.20 * (1 + rate * i) * noise`, rate
0.036 / 0.032 / 0.026 by territory group. -/
def _simulate_apl (territoire : String) (config : TerritoireConfig) (i : ℕ)
    (noise : ℚ) : ℚ :=
  let growth : ℚ :=
    if territoire ∈ ["Mayotte", "Guyane"] then 1 + 36/1000 * i
    else if territoire ∈ ["La Réunion", "Polynésie française"] then 1 + 32/1000 * i
    else 1 + 26/1000 * i
  config.budget_base * (20/100) * growth * noise

/-- `_simulate_rsa` (solidarity income): `budget_base * 0.15 * (1 + rate * i) *
multiplier * noise`, multiplier 1.6 iff `"precarite"` tag, rate
0.042 / 0.038 / 0.03 by territory group. -/
def _simulate_rsa (territoire : String) (config : TerritoireConfig) (i : ℕ)
    (noise : ℚ) : ℚ :=
  let multiplier : ℚ := if "precarite" ∈ config.specificites then 16/10 else 1
  let growth : ℚ :=
    if territoire ∈ ["Mayotte", "Guyane"] then 1 + 42/1000 * i
    else if territoire ∈ ["La Réunion", "Polynésie française"] then 1 + 38/1000 * i
    else 1 + 30/1000 * i
  config.budget_base * (15/100) * growth * multiplier * noise

/-- `_simulate_birth_grant`: `budget_base * 0.04 * (1 + rate * i) *
multiplier * noise`, multiplier 1.5 iff `"jeunesse"` tag, rate
0.026 / 0.022 / 0.018 by territory group. -/
def _simulate_birth_grant (territoire : String) (config : TerritoireConfig)
    (i : ℕ) (noise : ℚ) : ℚ :=
  let multiplier : ℚ := if "jeunesse" ∈ config.specificites then 15/10 else 1
  let growth : ℚ :=
    if territoire ∈ ["Mayotte", "Guyane"] then 1 + 26/1000 * i
    else if territoire ∈ ["La Réunion", "Polynésie française"] then 1 + 22/1000 * i
    else 1 + 18/1000 * i
  config.budget_base * (4/100) * growth * multiplier * noise

end CafDromCom

namespace CafDromCom

/-- `_add_caf_trends`, 2002–2005 block: state contributions ×1.1, family
benefits ×1.15. -/
def trends_2002 (year : ℕ) (r : Row) : Row := fun f =>
  if 2002 ≤ year ∧ year ≤ 2005 then
    match f with
    | .Contributions_Etat => r .Contributions_Etat * (11/10)
    | .Prestations_Familiales => r .Prestations_Familiales * (115/100)
    | _ => r f
  else r f

/-- `_add_caf_trends`, 2006–2010 block: RSA ×1.25, solidarity benefits ×1.3. -/
def trends_2006 (year : ℕ) (r : Row) : Row := fun f =>
  if 2006 ≤ year ∧ year ≤ 2010 then
    match f with
    | .RSA => r .RSA * (125/100)
    | .Prestations_Solidarite => r .Prestations_Solidarite * (13/10)
    | _ => r f
  else r f

/-- `_add_caf_trends`, `if 2008 <= year <= 2009 ... elif 2011 <= year <= 2015`
chain: financial crisis (social contributions ×0.92, RSA ×1.15) or social
policy reinforcement (state contributions ×1.12, family allowance ×1.08). -/
def trends_crise (year : ℕ) (r : Row) : Row := fun f =>
  if 2008 ≤ year ∧ year ≤ 2009 then
    match f with
    | .Cotisations_Sociales => r .Cotisations_Sociales * (92/100)
    | .RSA => r .RSA * (115/100)
    | _ => r f
  else if 2011 ≤ year ∧ year ≤ 2015 then
    match f with
    | .Contributions_Etat => r .Contributions_Etat * (112/100)
    | .Allocations_Familiales => r .Allocations_Familiales * (108/100)
    | _ => r f
  else r f

/-- `_add_caf_trends`, 2017 block: state contributions ×1.18, RSA ×1.10. -/
def trends_2017 (year : ℕ) (r : Row) : Row := fun f =>
  if year = 2017 then
    match f with
    | .Contributions_Etat => r .Contributions_Etat * (118/100)
    | .RSA => r .RSA * (11/10)
    | _ => r f
  else r f

/-- `_add_caf_trends`, COVID block: outer guard 2020–2021, inner guard
year = 2020 (social contributions ×0.85, state contributions ×1.25,
RSA ×1.35). -/
def trends_covid (year : ℕ) (r : Row) : Row := fun f =>
  if 2020 ≤ year ∧ year ≤ 2021 then
    if year = 2020 then
      match f with
      | .Cotisations_Sociales => r .Cotisations_Sociales * (85/100)
      | .Contributions_Etat => r .Contributions_Etat * (125/100)
      | .RSA => r .RSA * (135/100)
      | _ => r f
    else r f
  else r f

/-- `_add_caf_trends`, post-COVID block (`year >= 2022`): state
contributions ×1.08, housing benefits ×1.12, ARS ×1.10. -/
def trends_relance (year : ℕ) (r : Row) : Row := fun f =>
  if 2022 ≤ year then
    match f with
    | .Contributions_Etat => r .Contributions_Etat * (108/100)
    | .Prestations_Logement => r .Prestations_Logement * (112/100)
    | .ARS => r .ARS * (11/10)
    | _ => r f
  else r f

/-- `_add_caf_trends` on one row: the six blocks applied in source order. -/
def _add_caf_trends (year : ℕ) (r : Row) : Row :=
  trends_relance year (trends_covid year (trends_2017 year
    (trends_crise year (trends_2006 year (trends_2002 year r)))))

/-- Transcription of the spec's Step 8 era-adjustment table: the product of
the multipliers of all rules matching a given year and field (used to compare
`_add_caf_trends` against the spec; every rule is a plain year predicate). -/
def spec_era_multiplier (year : ℕ) (f : CAFField) : ℚ :=
  match f with
  | .Contributions_Etat =>
      (if 2002 ≤ year ∧ year ≤ 2005 then (11/10 : ℚ) else 1)
      * (if 2011 ≤ year ∧ year ≤ 2015 then (112/100 : ℚ) else 1)
      * (if year = 2017 then (118/100 : ℚ) else 1)
      * (if year = 2020 then (125/100 : ℚ) else 1)
      * (if 2022 ≤ year then (108/100 : ℚ) else 1)
  | .Prestations_Familiales =>
      if 2002 ≤ year ∧ year ≤ 2005 then (115/100 : ℚ) else 1
  | .RSA =>
      (if 2006 ≤ year ∧ year ≤ 2010 then (125/100 : ℚ) else 1)
      * (if 2008 ≤ year ∧ year ≤ 2009 then (115/100 : ℚ) else 1)
      * (if year = 2017 then (11/10 : ℚ) else 1)
      * (if year = 2020 then (135/100 : ℚ) else 1)
  | .Prestations_Solidarite =>
      if 2006 ≤ year ∧ year ≤ 2010 then (13/10 : ℚ) else 1
  | .Cotisations_Sociales =>
      (if 2008 ≤ year ∧ year ≤ 2009 then (92/100 : ℚ) else 1)
      * (if year = 2020 then (85/100 : ℚ) else 1)
  | .Allocations_Familiales =>
      if 2011 ≤ year ∧ year ≤ 2015 then (108/100 : ℚ) else 1
  | .Prestations_Logement =>
      if 2022 ≤ year then (112/100 : ℚ) else 1
  | .ARS =>
      if 2022 ≤ year then (11/10 : ℚ) else 1
  | _ => 1

/-- The multiplier applied by the `trends_2002` block to one cell. -/
def mult_2002 (year : ℕ) (f : CAFField) : ℚ :=
  if 2002 ≤ year ∧ year ≤ 2005 then
    match f with
    | .Contributions_Etat => 11/10
    | .Prestations_Familiales => 115/100
    | _ => 1
  else 1

/-- The multiplier applied by the `trends_2006` block to one cell. -/
def mult_2006 (year : ℕ) (f : CAFField) : ℚ :=
  if 2006 ≤ year ∧ year ≤ 2010 then
    match f with
    | .RSA => 125/100
    | .Prestations_Solidarite => 13/10
    | _ => 1
  else 1

/-- The multiplier applied by the `trends_crise` if/elif chain to one cell. -/
def mult_crise (year : ℕ) (f : CAFField) : ℚ :=
  if 2008 ≤ year ∧ year ≤ 2009 then
    match f with
    | .Cotisations_Sociales => 92/100
    | .RSA => 115/100
    | _ => 1
  else if 2011 ≤ year ∧ year ≤ 2015 then
    match f with
    | .Contributions_Etat => 112/100
    | .Allocations_Familiales => 108/100
    | _ => 1
  else 1

/-- The multiplier applied by the `trends_2017` block to one cell. -/
def mult_2017 (year : ℕ) (f : CAFField) : ℚ :=
  if year = 2017 then
    match f with
    | .Contributions_Etat => 118/100
    | .RSA => 11/10
    | _ => 1
  else 1

/-- The multiplier applied by the `trends_covid` block to one cell. -/
def mult_covid (year : ℕ) (f : CAFField) : ℚ :=
  if 2020 ≤ year ∧ year ≤ 2021 then
    if year = 2020 then
      match f with
      | .Cotisations_Sociales => 85/100
      | .Contributions_Etat => 125/100
      | .RSA => 135/100
      | _ => 1
    else 1
  else 1

/-- The multiplier applied by the `trends_relance` block to one cell. -/
def mult_relance (year : ℕ) (f : CAFField) : ℚ :=
  if 2022 ≤ year then
    match f with
    | .Contributions_Etat => 108/100
    | .Prestations_Logement => 112/100
    | .ARS => 11/10
    | _ => 1
  else 1

/-- The per-spec error type for the generator's failure modes.
Modelled from the spec: the spec (§7) names `InvalidRangeError` and
`InvalidProfileError`; the source defines no exception class at all. -/
inductive CafError where
  | invalidRange
  | invalidProfile
deriving DecidableEq, Repr

/-- One row of `generate_financial_data` before the trends pass: each field's
simulator called with the year's index `i`, calendar `year`, and that cell's
noise draw. -/
def generate_row (territoire : String) (config : TerritoireConfig)
    (i year : ℕ) (noise : CAFField → ℚ) : Row := fun f =>
  match f with
  | .Nombre_Allocataires => _simulate_allocataires territoire config i
  | .Prestations_Versees =>
      _simulate_prestations territoire config i (noise .Prestations_Versees)
  | .Recettes_Totales =>
      _simulate_total_revenue territoire config i (noise .Recettes_Totales)
  | .Cotisations_Sociales =>
      _simulate_social_contributions territoire config i (noise .Cotisations_Sociales)
  | .Contributions_Etat =>
      _simulate_state_contributions territoire config year (noise .Contributions_Etat)
  | .Autres_Recettes =>
      _simulate_other_revenue config i (noise .Autres_Recettes)
  | .Depenses_Totales =>
      _simulate_total_expenses territoire config i (noise .Depenses_Totales)
  | .Prestations_Familiales =>
      _simulate_family_benefits territoire config i (noise .Prestations_Familiales)
  | .Prestations_Logement =>
      _simulate_housing_benefits territoire config i (noise .Prestations_Logement)
  | .Prestations_Solidarite =>
      _simulate_solidarity_benefits territoire config i (noise .Prestations_Solidarite)
  | .Frais_Gestion =>
      _simulate_management_costs config i (noise .Frais_Gestion)
  | .Taux_Couverture =>
      _simulate_coverage_rate territoire year (noise .Taux_Couverture)
  | .Ratio_Gestion =>
      _simulate_management_ratio territoire year (noise .Ratio_Gestion)
  | .Solde_Compte =>
      _simulate_account_balance config year (noise .Solde_Compte)
  | .Allocations_Familiales =>
      _simulate_family_allocations territoire config i (noise .Allocations_Familiales)
  | .ARS => _simulate_ars territoire config i (noise .ARS)
  | .APL => _simulate_apl territoire config i (noise .APL)
  | .RSA => _simulate_rsa territoire config i (noise .RSA)
  | .Prime_Naissance =>
      _simulate_birth_grant territoire config i (noise .Prime_Naissance)

/-- `generate_financial_data`: resolve the configuration, build one row per
year of `pd.date_range(start_year, end_year)` (empty when the range is
reversed), apply `_add_caf_trends` to every row.  The codomain is `Except`
to record that the source raises no exception on any path. -/
def generate_financial_data (territoire : String) (start_year end_year : ℕ)
    (noise : ℕ → CAFField → ℚ) : Except CafError (List (ℕ × Row)) :=
  let config := _get_territoire_config territoire
  Except.ok ((List.range (end_year + 1 - start_year)).map (fun i =>
    (start_year + i,
     _add_caf_trends (start_year + i)
       (generate_row territoire config i (start_year + i) (noise i)))))

/-- The tier rate used by `_simulate_state_contributions` after 2010:
0.022 / 0.018 / 0.015 by territory group. -/
def state_contribution_rate (territoire : String) : ℚ :=
  if territoire ∈ ["Mayotte", "Guyane"] then 22/1000
  else if territoire ∈ ["La Réunion", "Polynésie française"] then 18/1000
  else 15/1000

/-- The growth-percentage computation of `_generate_financial_insights`:
`((series.iloc[-1] / series.iloc[0]) - 1) * 100`; `none` when the series is
empty (where `iloc` would raise). -/
def growth_pct (series : List ℚ) : Option ℚ :=
  match series.head?, series.getLast? with
  | some first, some last => some ((last / first - 1) * 100)
  | _, _ => none

end CafDromCom

namespace CafDromCom

/-- The 2002–2005 block scales each cell by its `mult_2002` multiplier. -/
theorem trends_2002_eq (year : ℕ) (r : Row) (f : CAFField) :
    trends_2002 year r f = mult_2002 year f * r f := by
  cases f <;> simp only [trends_2002, mult_2002] <;> split_ifs <;> ring

/-- The 2006–2010 block scales each cell by its `mult_2006` multiplier. -/
theorem trends_2006_eq (year : ℕ) (r : Row) (f : CAFField) :
    trends_2006 year r f = mult_2006 year f * r f := by
  cases f <;> simp only [trends_2006, mult_2006] <;> split_ifs <;> ring

/-- The crisis if/elif chain scales each cell by its `mult_crise` multiplier. -/
theorem trends_crise_eq (year : ℕ) (r : Row) (f : CAFField) :
    trends_crise year r f = mult_crise year f * r f := by
  cases f <;> simp only [trends_crise, mult_crise] <;> split_ifs <;> ring

/-- The 2017 block scales each cell by its `mult_2017` multiplier. -/
theorem trends_2017_eq (year : ℕ) (r : Row) (f : CAFField) :
    trends_2017 year r f = mult_2017 year f * r f := by
  cases f <;> simp only [trends_2017, mult_2017] <;> split_ifs <;> ring

/-- The COVID block scales each cell by its `mult_covid` multiplier. -/
theorem trends_covid_eq (year : ℕ) (r : Row) (f : CAFField) :
    trends_covid year r f = mult_covid year f * r f := by
  cases f <;> simp only [trends_covid, mult_covid] <;> split_ifs <;> ring

/-- The post-COVID block scales each cell by its `mult_relance` multiplier. -/
theorem trends_relance_eq (year : ℕ) (r : Row) (f : CAFField) :
    trends_relance year r f = mult_relance year f * r f := by
  cases f <;> simp only [trends_relance, mult_relance] <;> split_ifs <;> ring

/-- The product of the six block multipliers equals the spec's Step 8 table
multiplier, for every year and field. -/
theorem mult_product_eq_spec (year : ℕ) (f : CAFField) :
    mult_relance year f * mult_covid year f * mult_2017 year f
      * mult_crise year f * mult_2006 year f * mult_2002 year f
      = spec_era_multiplier year f := by
  cases f
  all_goals
    simp only [mult_relance, mult_covid, mult_2017, mult_crise, mult_2006,
      mult_2002, spec_era_multiplier, ite_self]
  all_goals try ring
  all_goals split_ifs
  all_goals try ring
  all_goals exfalso
  all_goals omega

/-- Helper: `_add_caf_trends` multiplies every cell by the product of the
spec-table multipliers matching its year and field. -/
theorem add_caf_trends_eq_mul (year : ℕ) (r : Row) (f : CAFField) :
    _add_caf_trends year r f = spec_era_multiplier year f * r f := by
  rw [_add_caf_trends, trends_relance_eq, trends_covid_eq, trends_2017_eq,
    trends_crise_eq, trends_2006_eq, trends_2002_eq, ← mult_product_eq_spec]
  ring

/-- C2: for every name in the 11-entry preset table the resolver returns that
entry's literal bundle, and for every string not among those names it returns
the default bundle; the resolver is a total function (no failure, no effects). -/
theorem resolver_exact_or_default :
    (∀ p : String × TerritoireConfig, p ∈ namedPresets →
      _get_territoire_config p.1 = p.2) ∧
    (∀ s : String, s ∉ namedPresets.map Prod.fst →
      _get_territoire_config s = defaultConfig) := by
  constructor
  · intro p hp
    fin_cases hp <;> rfl
  · intro s hs
    simp only [namedPresets, configsList, List.take, List.map, List.mem_cons,
      List.not_mem_nil, or_false, not_or] at hs
    obtain ⟨h1, h2, h3, h4, h5, h6, h7, h8, h9, h10, h11⟩ := hs
    simp only [_get_territoire_config, configsList, List.lookup,
      beq_eq_false_iff_ne.mpr h1, beq_eq_false_iff_ne.mpr h2,
      beq_eq_false_iff_ne.mpr h3, beq_eq_false_iff_ne.mpr h4,
      beq_eq_false_iff_ne.mpr h5, beq_eq_false_iff_ne.mpr h6,
      beq_eq_false_iff_ne.mpr h7, beq_eq_false_iff_ne.mpr h8,
      beq_eq_false_iff_ne.mpr h9, beq_eq_false_iff_ne.mpr h10,
      beq_eq_false_iff_ne.mpr h11]
    cases h : s == "default" <;> simp [h]

/-- Witness for C2 at concrete inputs: a named territory and an unknown one. -/
theorem resolver_exact_or_default_witness :
    _get_territoire_config "Guadeloupe"
      = ⟨120000, 450, ["familles_nombreuses", "precarite", "vieillesse"]⟩ ∧
    _get_territoire_config "Bretagne" = defaultConfig :=
  ⟨resolver_exact_or_default.1
      ("Guadeloupe", ⟨120000, 450, ["familles_nombreuses", "precarite", "vieillesse"]⟩)
      (by decide),
   resolver_exact_or_default.2 "Bretagne" (by decide)⟩

/-- C1: for every year in 2002..2025, `_add_caf_trends` multiplies each field
by exactly the product of the spec-table multipliers whose year predicate
matches (state contributions ×1.10 for 2002–2005, ×1.12 for 2011–2015, ×1.18
in 2017, ×1.25 in 2020, ×1.08 from 2022; family benefits ×1.15 for 2002–2005;
solidarity income ×1.25 for 2006–2010, ×1.15 for 2008–2009, ×1.10 in 2017,
×1.35 in 2020; solidarity benefits ×1.30 for 2006–2010; social contributions
×0.92 for 2008–2009 and ×0.85 in 2020; family allowance ×1.08 for 2011–2015;
housing benefits ×1.12 and ARS ×1.10 from 2022); in particular the 2011–2015
`elif` branch fires on every year of 2011–2015, the overlapping 2008–2009 and
2020 rules compose cumulatively, and unlisted fields are left unchanged
(multiplier 1). -/
theorem era_adjustment_matches_spec_table (year : ℕ)
    (_h1 : 2002 ≤ year) (_h2 : year ≤ 2025) (r : Row) (f : CAFField) :
    _add_caf_trends year r f = spec_era_multiplier year f * r f :=
  add_caf_trends_eq_mul year r f

/-- Witness for C1: the 2017 adjustment of state contributions on a row of
twos. -/
theorem era_adjustment_matches_spec_table_witness :
    _add_caf_trends 2017 (fun _ => (2 : ℚ)) CAFField.Contributions_Etat
      = spec_era_multiplier 2017 CAFField.Contributions_Etat * 2 :=
  era_adjustment_matches_spec_table 2017 (by norm_num) (by norm_num)
    (fun _ => (2 : ℚ)) CAFField.Contributions_Etat

/-- C4: the era-adjustment pass is not idempotent: running it twice multiplies
every matched cell by the square of its composed multiplier, while one run
multiplies by the multiplier itself; concretely, re-running the pass on the
2020 RSA cell changes the value again. -/
theorem era_adjustment_not_idempotent :
    (∀ (year : ℕ) (r : Row) (f : CAFField),
      _add_caf_trends year (_add_caf_trends year r) f
        = spec_era_multiplier year f ^ 2 * r f ∧
      _add_caf_trends year r f = spec_era_multiplier year f * r f) ∧
    _add_caf_trends 2020 (_add_caf_trends 2020 (fun _ => (1 : ℚ))) CAFField.RSA
      ≠ _add_caf_trends 2020 (fun _ => (1 : ℚ)) CAFField.RSA := by
  constructor
  · intro year r f
    constructor
    · rw [add_caf_trends_eq_mul, add_caf_trends_eq_mul]; ring
    · exact add_caf_trends_eq_mul year r f
  · rw [add_caf_trends_eq_mul, add_caf_trends_eq_mul]
    norm_num [spec_era_multiplier]

/-- Helper: a territory resolving to the default bundle is in none of the
special growth-tier lists. -/
theorem default_config_not_special (t : String)
    (h : _get_territoire_config t = defaultConfig) :
    t ∉ (["Mayotte", "Guyane"] : List String) ∧
    t ∉ (["La Réunion", "Polynésie française"] : List String) := by
  constructor <;> intro hm <;> simp only [List.mem_cons, List.not_mem_nil,
    or_false] at hm <;> rcases hm with rfl | rfl <;> exact absurd h (by decide)

/-- C3: with the default profile (population 50 000, moderate tier), the
allocataire count is exactly 50 000 in the first year and exactly
50 000 × (1 + 0.012 × 1) = 50 600 in the second. -/
theorem allocataires_default_profile (t : String)
    (h : _get_territoire_config t = defaultConfig) :
    _simulate_allocataires t (_get_territoire_config t) 0 = 50000 ∧
    _simulate_allocataires t (_get_territoire_config t) 1 = 50600 := by
  obtain ⟨h1, h2⟩ := default_config_not_special t h
  rw [h]
  simp only [_simulate_allocataires, if_neg h1, if_neg h2, defaultConfig]
  norm_num

/-- Witness for C3 at the unknown territory "Alsace". -/
theorem allocataires_default_profile_witness :
    _simulate_allocataires "Alsace" (_get_territoire_config "Alsace") 0 = 50000 ∧
    _simulate_allocataires "Alsace" (_get_territoire_config "Alsace") 1 = 50600 :=
  allocataires_default_profile "Alsace" (by decide)

/-- C5: the four threshold-gated series (state contributions, coverage rate,
management ratio, account balance) are flat in the year before 2010 (factor 1
regardless of year) and grow linearly in (year − 2010) afterwards, with the
field's rate (tier-dependent for state contributions; 0.005, −0.003 and 0.01
for the three indicators). -/
theorem threshold_gated_fields_kink (t : String) (config : TerritoireConfig)
    (ν : ℚ) :
    (∀ y1 y2 : ℕ, y1 < 2010 → y2 < 2010 →
      _simulate_state_contributions t config y1 ν
        = _simulate_state_contributions t config y2 ν ∧
      _simulate_coverage_rate t y1 ν = _simulate_coverage_rate t y2 ν ∧
      _simulate_management_ratio t y1 ν = _simulate_management_ratio t y2 ν ∧
      _simulate_account_balance config y1 ν
        = _simulate_account_balance config y2 ν) ∧
    (∀ y : ℕ, 2010 ≤ y →
      _simulate_state_contributions t config y ν
        = (1 + state_contribution_rate t * ((y : ℚ) - 2010))
          * _simulate_state_contributions t config 2000 ν ∧
      _simulate_coverage_rate t y ν
        = (1 + 5/1000 * ((y : ℚ) - 2010)) * _simulate_coverage_rate t 2000 ν ∧
      _simulate_management_ratio t y ν
        = (1 + (-3/1000) * ((y : ℚ) - 2010))
          * _simulate_management_ratio t 2000 ν ∧
      _simulate_account_balance config y ν
        = (1 + 10/1000 * ((y : ℚ) - 2010))
          * _simulate_account_balance config 2000 ν) := by
  constructor
  · intro y1 y2 hy1 hy2
    refine ⟨?_, ?_, ?_, ?_⟩ <;>
      simp only [_simulate_state_contributions, _simulate_coverage_rate,
        _simulate_management_ratio, _simulate_account_balance,
        if_neg (by omega : ¬(2010 ≤ y1)), if_neg (by omega : ¬(2010 ≤ y2))]
  · intro y hy
    refine ⟨?_, ?_, ?_, ?_⟩
    all_goals
      simp only [_simulate_state_contributions, _simulate_coverage_rate,
        _simulate_management_ratio, _simulate_account_balance,
        state_contribution_rate, if_pos hy,
        if_neg (by norm_num : ¬((2010 : ℕ) ≤ 2000))]
    all_goals try split_ifs
    all_goals ring

/-- Witness for C5: state contributions are flat across 2005/2008 and kinked
at 2015 for an unlisted territory. -/
theorem threshold_gated_fields_kink_witness :
    _simulate_state_contributions "Alsace" defaultConfig 2005 1
      = _simulate_state_contributions "Alsace" defaultConfig 2008 1 ∧
    _simulate_state_contributions "Alsace" defaultConfig 2015 1
      = (1 + state_contribution_rate "Alsace" * (((2015 : ℕ) : ℚ) - 2010))
        * _simulate_state_contributions "Alsace" defaultConfig 2000 1 :=
  ⟨((threshold_gated_fields_kink "Alsace" defaultConfig 1).1 2005 2008
      (by norm_num) (by norm_num)).1,
   ((threshold_gated_fields_kink "Alsace" defaultConfig 1).2 2015
      (by norm_num)).1⟩

/-- C6: each tag-boosted series equals its fixed boost (×1.4, ×1.4, ×1.5,
×1.6, ×1.3, ×1.5) times the same series computed with an empty tag set, the
boost applying exactly when the relevant tag is literally present in the
profile's tag list. -/
theorem tag_multipliers_iff_present (t : String) (c : TerritoireConfig)
    (i : ℕ) (ν : ℚ) :
    _simulate_family_benefits t c i ν
      = (if "familles_nombreuses" ∈ c.specificites then (14/10 : ℚ) else 1)
        * _simulate_family_benefits t { c with specificites := [] } i ν ∧
    _simulate_family_allocations t c i ν
      = (if "familles_nombreuses" ∈ c.specificites then (14/10 : ℚ) else 1)
        * _simulate_family_allocations t { c with specificites := [] } i ν ∧
    _simulate_solidarity_benefits t c i ν
      = (if "precarite" ∈ c.specificites then (15/10 : ℚ) else 1)
        * _simulate_solidarity_benefits t { c with specificites := [] } i ν ∧
    _simulate_rsa t c i ν
      = (if "precarite" ∈ c.specificites then (16/10 : ℚ) else 1)
        * _simulate_rsa t { c with specificites := [] } i ν ∧
    _simulate_ars t c i ν
      = (if "jeunesse" ∈ c.specificites then (13/10 : ℚ) else 1)
        * _simulate_ars t { c with specificites := [] } i ν ∧
    _simulate_birth_grant t c i ν
      = (if "jeunesse" ∈ c.specificites then (15/10 : ℚ) else 1)
        * _simulate_birth_grant t { c with specificites := [] } i ν := by
  refine ⟨?_, ?_, ?_, ?_, ?_, ?_⟩ <;>
    simp only [_simulate_family_benefits, _simulate_family_allocations,
      _simulate_solidarity_benefits, _simulate_rsa, _simulate_ars,
      _simulate_birth_grant, List.not_mem_nil, if_false] <;>
    split_ifs <;> ring

/-- C7: with every noise draw fixed at 1, two generation runs with the same
territory identifier and year range produce identical series for every field
and every year. -/
theorem generator_deterministic_unit_noise (t : String) (s e : ℕ)
    (ν1 ν2 : ℕ → CAFField → ℚ)
    (h1 : ∀ i f, ν1 i f = 1) (h2 : ∀ i f, ν2 i f = 1) :
    generate_financial_data t s e ν1 = generate_financial_data t s e ν2 := by
  have hν : ν1 = ν2 :=
    funext fun i => funext fun f => (h1 i f).trans (h2 i f).symm
  rw [hν]

/-- Witness for C7: two unit-noise runs on Guyane, 2002–2025. -/
theorem generator_deterministic_unit_noise_witness :
    generate_financial_data "Guyane" 2002 2025 (fun _ _ => 1)
      = generate_financial_data "Guyane" 2002 2025 (fun _ _ => 1) :=
  generator_deterministic_unit_noise "Guyane" 2002 2025
    (fun _ _ => 1) (fun _ _ => 1) (fun _ _ => rfl) (fun _ _ => rfl)

/-- Counterexample for C8: on a reversed year range the generator returns a
well-defined empty series (`Except.ok []`), not an `InvalidRangeError`. -/
theorem reversed_range_returns_ok_empty :
    generate_financial_data "Guadeloupe" 2025 2002 (fun _ _ => 1)
      = Except.ok [] := rfl

/-- C8 (amended): the generator has no error condition at all: it returns a
result (`Except.ok`) for every territory string, every year range and every
noise stream, and an empty or reversed range yields the empty series rather
than an error; no `InvalidRangeError` or `InvalidProfileError` is ever
produced. -/
theorem generator_never_fails (t : String) (s e : ℕ)
    (ν : ℕ → CAFField → ℚ) :
    (∃ rows, generate_financial_data t s e ν = Except.ok rows) ∧
    (e < s → generate_financial_data t s e ν = Except.ok []) := by
  refine ⟨⟨_, rfl⟩, fun h => ?_⟩
  simp only [generate_financial_data]
  have h0 : e + 1 - s = 0 := by omega
  rw [h0]
  rfl

/-- Witness for C8 on a concrete reversed range. -/
theorem generator_never_fails_witness :
    generate_financial_data "Martinique" 2024 2003 (fun _ _ => 1)
      = Except.ok [] :=
  (generator_never_fails "Martinique" 2024 2003 (fun _ _ => 1)).2
    (by norm_num)

/-- C9: the summary growth percentage is `(last / first - 1) * 100` over a
series, and on the two-year total-revenue series `[100, 110]` it is exactly
10. -/
theorem growth_pct_last_over_first :
    (∀ (xs : List ℚ) (a b : ℚ), xs.head? = some a → xs.getLast? = some b →
      growth_pct xs = some ((b / a - 1) * 100)) ∧
    growth_pct [100, 110] = some 10 := by
  constructor
  · intro xs a b ha hb
    simp [growth_pct, ha, hb]
  · show growth_pct [100, 110] = some 10
    simp only [growth_pct, List.head?, List.getLast?]
    norm_num

/-- Witness for C9 applying the general formula to `[100, 110]`. -/
theorem growth_pct_last_over_first_witness :
    growth_pct [100, 110] = some ((110 / 100 - 1) * 100) :=
  growth_pct_last_over_first.1 [100, 110] 100 110 rfl rfl

/-- C10: total revenue depends only on the territory group, the baseline
budget, the year index and its own noise draw, and is not reconciled with its
components: with all noise draws at 1, in the second simulated year the total
differs from the sum of social contributions, state contributions and other
revenue. -/
theorem total_revenue_not_reconciled :
    (∀ (t : String) (c c' : TerritoireConfig) (i : ℕ) (ν : ℚ),
      c.budget_base = c'.budget_base →
      _simulate_total_revenue t c i ν = _simulate_total_revenue t c' i ν) ∧
    _simulate_total_revenue "Bretagne" defaultConfig 1 1
      ≠ _simulate_social_contributions "Bretagne" defaultConfig 1 1
        + _simulate_state_contributions "Bretagne" defaultConfig 2003 1
        + _simulate_other_revenue defaultConfig 1 1 := by
  constructor
  · intro t c c' i ν h
    simp only [_simulate_total_revenue, h]
  · have hm1 : ("Bretagne" : String) ∉ (["Mayotte", "Guyane"] : List String) :=
      by decide
    have hm2 : ("Bretagne" : String)
        ∉ (["La Réunion", "Polynésie française"] : List String) := by decide
    simp only [_simulate_total_revenue, _simulate_social_contributions,
      _simulate_state_contributions, _simulate_other_revenue, defaultConfig,
      if_neg hm1, if_neg hm2, if_neg (by norm_num : ¬((2010 : ℕ) ≤ 2003))]
    norm_num

/-- Witness for C10: the total-revenue series reads nothing from a profile
beyond its baseline budget. -/
theorem total_revenue_not_reconciled_witness :
    _simulate_total_revenue "Alsace" defaultConfig 2 3
      = _simulate_total_revenue "Alsace" ⟨1, 200, []⟩ 2 3 :=
  total_revenue_not_reconciled.1 "Alsace" defaultConfig ⟨1, 200, []⟩ 2 3 rfl

end CafDromCom
